import Mathlib

/-!
Verification of the pygolang concurrency runtime (channels, select, timers)
against its natural-language specification.

The development shallowly embeds the channel code of `golang/_golang.pyx`
and the timer/ticker code of `_time.pyx` as pure state-transition
functions.  A channel is a record of capacity, FIFO data buffer and the
two waiter queues; every operation returns the successor state together
with the wakeups it performs, or a panic, or the fact that the calling
task would park/block.

A waiter's group arbitration (`group.try_to_win`) is represented by a
`canWin` flag on the waiter: it records whether, at the instant the
operation under `ch._mu` runs, the waiter's wait-group still has no
winner (always true for waiters parked by a plain send/recv, possibly
false for select waiters whose group was already won via another case).
-/

namespace Pygolang

/-- `_RecvWaiting`: a receiver parked on a channel.  `canWin` models
whether `w.group.try_to_win(w)` would succeed right now. -/
structure _RecvWaiting (α : Type) where
  canWin : Bool
deriving DecidableEq, Repr

/-- `_SendWaiting`: a sender parked on a channel, carrying the object
that was passed to send. -/
structure _SendWaiting (α : Type) where
  canWin : Bool
  obj    : α
deriving DecidableEq, Repr

/-- `pychan` state: capacity, data buffer deque, parked receivers,
parked senders, closed flag (`_mu` is the lock serialising operations
and has no state content in the embedding). -/
structure pychan (α : Type) where
  _cap    : Nat
  _dataq  : List α
  _recvq  : List (_RecvWaiting α)
  _sendq  : List (_SendWaiting α)
  _closed : Bool
deriving DecidableEq, Repr

/-- `pychan.__init__(size)`: fresh open channel with empty buffer and
queues. -/
def pychan.init (α : Type) (size : Nat) : pychan α :=
  ⟨size, [], [], [], false⟩

/-- `_dequeWaiter(queue)`: popleft waiters until one wins its group
(`canWin`); losers are removed and discarded.  Returns the winning
waiter (if any) and the remaining queue; when no waiter wins the whole
queue has been drained. -/
def _dequeWaiter {w : Type} (canWin : w → Bool) : List w → Option w × List w
  | [] => (none, [])
  | x :: xs => if canWin x then (some x, xs) else _dequeWaiter canWin xs

/-- Outcome of `pychan._trysend`: panic, success (with the receiver
wakeup `recv.wakeup(rx, True)` performed, if any), or failure with the
lock still held (`notok` carries the state because `_dequeWaiter` may
have dropped losing waiters). -/
inductive TrySendR (α : Type) where
  | panicked (msg : String) (st : pychan α)
  | ok (st : pychan α) (wake : Option (_RecvWaiting α × Option α × Bool))
  | notok (st : pychan α)
deriving DecidableEq, Repr

/-- `pychan._trysend(obj)`, translated clause by clause from the source:
closed → panic; synchronous → hand off to a dequeued receiver;
buffered → append when not full, then hand the buffer head to a
dequeued receiver if one exists. -/
def pychan._trysend {α : Type} (ch : pychan α) (obj : α) : TrySendR α :=
  if ch._closed then
    .panicked "send on closed channel" ch
  else if ch._cap = 0 then
    -- synchronous channel
    match _dequeWaiter (fun w => w.canWin) ch._recvq with
    | (none, q)   => .notok { ch with _recvq := q }
    | (some r, q) => .ok { ch with _recvq := q } (some (r, some obj, true))
  else
    -- buffered channel
    if ch._cap ≤ ch._dataq.length then
      .notok ch
    else
      -- self._dataq.append(obj); rx = self._dataq.popleft() on handoff
      match _dequeWaiter (fun w => w.canWin) ch._recvq with
      | (some r, q) =>
          .ok { ch with _dataq := (ch._dataq ++ [obj]).tail, _recvq := q }
             (some (r, (ch._dataq ++ [obj]).head?, true))
      | (none, q) =>
          .ok { ch with _dataq := ch._dataq ++ [obj], _recvq := q } none

/-- Outcome of `pychan._tryrecv`: `ok rx st wake` is the source's
`return (rx, ok_inner), True` — the outer "try succeeded" flag is the
`ok` constructor itself, `rx` is the inner `(rx, ok)` pair, and `wake`
is the sender wakeup `send.wakeup(True)` performed, if any.  `notok` is
the source's `return (None, False), False`. -/
inductive TryRecvR (α : Type) where
  | ok (rx : Option α × Bool) (st : pychan α) (wake : Option (_SendWaiting α × Bool))
  | notok (st : pychan α)
deriving DecidableEq, Repr

/-- `pychan._tryrecv()`, translated clause by clause from the source:
buffer non-empty → pop head and pull a parked sender's value in;
else closed → `(None, False), True`; else take the value of a parked
sender directly. -/
def pychan._tryrecv {α : Type} (ch : pychan α) : TryRecvR α :=
  match ch._dataq with
  | rx :: rest =>
    -- buffered
    match _dequeWaiter (fun w => w.canWin) ch._sendq with
    | (some s, q) =>
        .ok (some rx, true) { ch with _dataq := rest ++ [s.obj], _sendq := q }
           (some (s, true))
    | (none, q) =>
        .ok (some rx, true) { ch with _dataq := rest, _sendq := q } none
  | [] =>
    if ch._closed then
      -- closed
      .ok (none, false) ch none
    else
      -- sync | empty: there is waiting writer
      match _dequeWaiter (fun w => w.canWin) ch._sendq with
      | (none, q)   => .notok { ch with _sendq := q }
      | (some s, q) => .ok (some s.obj, true) { ch with _sendq := q } (some (s, true))

/-- Outcome of `pychan.send`: panic, completion (with receiver wakeup,
if any), or the calling task parking with its `_SendWaiting` record
appended to `_sendq`. -/
inductive SendR (α : Type) where
  | panicked (msg : String) (st : pychan α)
  | done (st : pychan α) (wake : Option (_RecvWaiting α × Option α × Bool))
  | blocked (st : pychan α) (me : _SendWaiting α)
deriving DecidableEq, Repr

/-- `pychan.send(obj)`: try to send; on failure register a fresh
`_SendWaiting` (its group is new, hence `canWin = true`) and park. -/
def pychan.send {α : Type} (ch : pychan α) (obj : α) : SendR α :=
  match ch._trysend obj with
  | .panicked m st => .panicked m st
  | .ok st w => .done st w
  | .notok st =>
      .blocked { st with _sendq := st._sendq ++ [⟨true, obj⟩] } ⟨true, obj⟩

/-- The tail of `pychan.send` after the parked sender is woken:
`if not me.ok: pypanic("send on closed channel")`.  Returns the panic
message, or `none` for a normal return. -/
def _sendOnWake (ok : Bool) : Option String :=
  if ok then none else some "send on closed channel"

/-- Outcome of `pychan.recv_`: completion with the `(rx, ok)` pair (and
a sender wakeup, if any), or the calling task parking with its
`_RecvWaiting` record appended to `_recvq`.  `recv_` never panics. -/
inductive RecvR (α : Type) where
  | done (rx : Option α × Bool) (st : pychan α) (wake : Option (_SendWaiting α × Bool))
  | blocked (st : pychan α) (me : _RecvWaiting α)
deriving DecidableEq, Repr

/-- `pychan.recv_()`: try to receive; on failure register a fresh
`_RecvWaiting` and park. -/
def pychan.recv_ {α : Type} (ch : pychan α) : RecvR α :=
  match ch._tryrecv with
  | .ok rx st w => .done rx st w
  | .notok st => .blocked { st with _recvq := st._recvq ++ [⟨true⟩] } ⟨true⟩

/-- The `while 1: w = _dequeWaiter(q); if w is None: break; acc.append(w)`
drain loop of `pychan.close`, with `_dequeWaiter` inlined: collects the
waiters that win their group, in FIFO order, dropping losers.  The
queue is left empty. -/
def _drainq {w : Type} (canWin : w → Bool) : List w → List w
  | [] => []
  | x :: xs => if canWin x then x :: _drainq canWin xs else _drainq canWin xs

/-- Outcome of `pychan.close`: panic, or the closed successor state
together with the wakeups performed outside `._mu`: every drained
receiver gets `recv.wakeup(None, False)`, every drained sender gets
`send.wakeup(False)`. -/
inductive CloseR (α : Type) where
  | panicked (msg : String)
  | ok (st : pychan α) (recvWakes : List (_RecvWaiting α × Option α × Bool))
       (sendWakes : List (_SendWaiting α × Bool))
deriving DecidableEq, Repr

/-- `pychan.close()` on a non-nil channel: panic when already closed;
otherwise set `_closed`, drain both queues and perform the scheduled
wakeups. -/
def pychan.close {α : Type} (ch : pychan α) : CloseR α :=
  if ch._closed then
    .panicked "close of closed channel"
  else
    .ok { ch with _closed := true, _recvq := [], _sendq := [] }
       ((_drainq (fun w => w.canWin) ch._recvq).map (fun r => (r, (none : Option α), false)))
       ((_drainq (fun w => w.canWin) ch._sendq).map (fun s => (s, false)))

/-- A channel reference: either the distinguished nil channel
(`pynilchan`) or a regular channel with state. -/
inductive chan (α : Type) where
  | nil
  | mk (st : pychan α)
deriving DecidableEq, Repr

/-- `len(ch)`: length of the data buffer; 0 for the nil channel (whose
buffer is forever empty). -/
def chan.len {α : Type} : chan α → Nat
  | .nil => 0
  | .mk st => st._dataq.length

/-- A send call through a channel reference: `_blockforever()` on the
nil channel, else the regular send. -/
inductive SendCall (α : Type) where
  | blockForever
  | run (r : SendR α)
deriving DecidableEq, Repr

def chan.send {α : Type} : chan α → α → SendCall α
  | .nil, _ => .blockForever
  | .mk st, obj => .run (st.send obj)

/-- A recv_ call through a channel reference: `_blockforever()` on the
nil channel, else the regular recv_. -/
inductive RecvCall (α : Type) where
  | blockForever
  | run (r : RecvR α)
deriving DecidableEq, Repr

def chan.recv_ {α : Type} : chan α → RecvCall α
  | .nil => .blockForever
  | .mk st => .run st.recv_

/-- A close call through a channel reference: panic "close of nil
channel" on the nil channel, else the regular close. -/
def chan.close {α : Type} : chan α → CloseR α
  | .nil => .panicked "close of nil channel"
  | .mk st => st.close

/-! ## pyselect (first pass)

`pyselect(*casev)` shuffles the case list (remembering original
indices) and then polls each case in the shuffled order.  The shuffle
is external randomness; the embedding takes the already-permuted list
`ncasev : List (Nat × SelCase α)` as input, exactly the `ncasev` of the
source after `random.shuffle`.  Channels are referenced by index into
an environment list (the heap of live channels); `cno = none` denotes
the nil channel, which is never ready.  An index outside the
environment also acts as a nil channel (a model artifact; theorems use
valid indices). -/

/-- One select case: `(ch.send, tx)`, `ch.recv` / `ch.recv_`
(`commaok` distinguishes them), or `pydefault`. -/
inductive SelCase (α : Type) where
  | send (cno : Option Nat) (tx : α)
  | recv (cno : Option Nat) (commaok : Bool)
  | pydefault
deriving DecidableEq, Repr

/-- What `pyselect` pairs with the selected case number: `None` for a
send or default case, `rx` for a plain-recv case, `(rx, ok)` for a
comma-ok recv case. -/
inductive SelRet (α : Type) where
  | nothing
  | val (rx : Option α)
  | valok (rx : Option α × Bool)
deriving DecidableEq, Repr

/-- Result of the first (poll) pass: panic, a ready case with its
return value, or pass completed with no ready case (carrying the
mutated environment, the recorded default index and the number of
live non-default cases buffered for the second pass). -/
inductive PollR (α : Type) where
  | panicked (msg : String)
  | ready (n : Nat) (ret : SelRet α) (env : List (pychan α))
  | nopoll (env : List (pychan α)) (ndefault : Option Nat) (nlive : Nat)
deriving DecidableEq, Repr

/-- The `for (n, case) in ncasev` poll loop of `pyselect`, threading
the channel environment, the recorded default index and the count of
buffered live cases.  A second default panics; a ready send case
returns `(n, None)`; a ready recv case returns `(n, rx)` shaped by
`commaok`; a not-ready case leaves its (possibly loser-pruned) channel
state in the environment. -/
def pollCases {α : Type} (env : List (pychan α)) (ndefault : Option Nat)
    (nlive : Nat) : List (Nat × SelCase α) → PollR α
  | [] => .nopoll env ndefault nlive
  | (n, c) :: rest =>
    match c with
    | .pydefault =>
      match ndefault with
      | some _ => .panicked "pyselect: multiple default"
      | none => pollCases env (some n) nlive rest
    | .send cno tx =>
      match cno with
      | none => pollCases env ndefault nlive rest       -- nil chan is never ready
      | some i =>
        match env.get? i with
        | none => pollCases env ndefault nlive rest
        | some ch =>
          match ch._trysend tx with
          | .panicked m _ => .panicked m
          | .ok st _ => .ready n .nothing (env.set i st)
          | .notok st => pollCases (env.set i st) ndefault (nlive + 1) rest
    | .recv cno commaok =>
      match cno with
      | none => pollCases env ndefault nlive rest       -- nil chan is never ready
      | some i =>
        match env.get? i with
        | none => pollCases env ndefault nlive rest
        | some ch =>
          match ch._tryrecv with
          | .ok rx st _ =>
              .ready n (if commaok then .valok rx else .val rx.1) (env.set i st)
          | .notok st => pollCases (env.set i st) ndefault (nlive + 1) rest

/-- Result of `pyselect` up to the end of its first stage: panic, a
non-blocking return `(n, ret)`, `_blockforever()` (select over nil
channels or empty case list), or proceeding to the second
(subscribe-and-wait) pass. -/
inductive SelectR (α : Type) where
  | panicked (msg : String)
  | done (n : Nat) (ret : SelRet α) (env : List (pychan α))
  | blockForever
  | proceed (env : List (pychan α))
deriving DecidableEq, Repr

/-- `pyselect`, first stage: poll all cases; if one was ready return
it; else execute the default if provided; else block forever when no
live case exists; else go on to the second pass. -/
def pyselect1 {α : Type} (env : List (pychan α))
    (ncasev : List (Nat × SelCase α)) : SelectR α :=
  match pollCases env none 0 ncasev with
  | .panicked m => .panicked m
  | .ready n ret env => .done n ret env
  | .nopoll env ndefault nlive =>
    match ndefault with
    | some d => .done d .nothing env
    | none => if nlive = 0 then .blockForever else .proceed env

/-! ## Timers (`_time.pyx`)

Timestamps and durations are modelled as rationals.  `PyTimer._dt` is
a `double` whose value `INFINITY` means "disarmed"; the embedding uses
`Option ℚ` with `none` playing `INFINITY` (the source only ever
compares `_dt` against `INFINITY`, an exact comparison). -/

/-- `while c.len() > 0: c.recv()` drain loop body, run with `fuel`
iterations at most.  When the buffer is non-empty `recv_` always takes
its fast path, so the `.blocked` branch is unreachable under the loop
guard (it returns the parked state to stay total). -/
def recvLoop {α : Type} : Nat → pychan α → pychan α
  | 0, st => st
  | fuel + 1, st =>
    if st._dataq.isEmpty then st
    else
      match st.recv_ with
      | .done _ st' _ => recvLoop fuel st'
      | .blocked st' _ => st'

/-- The `stop` drain `while c.len() > 0: c.recv()`: enough fuel for
the loop to reach an empty buffer (each iteration strictly decreases
`|dataq| + |sendq|`). -/
def pychan.drain {α : Type} (st : pychan α) : pychan α :=
  recvLoop (st._dataq.length + st._sendq.length) st

/-- Drain through a channel reference; on the nil channel `len` is 0
and the loop body never runs. -/
def chan.drain {α : Type} : chan α → chan α
  | .nil => .nil
  | .mk st => .mk st.drain

/-- `PyTimer` state: its channel (`nil` when constructed with a
function `f`), whether `_f` is set, deadline `_dt` (`none` =
`INFINITY` = disarmed) and the `_ver` arming counter. -/
structure PyTimer where
  c    : chan ℚ
  hasF : Bool
  _dt  : Option ℚ
  _ver : Int
deriving DecidableEq, Repr

/-- `PyTimer._stop()`: under `._mu`, disarm and bump `_ver` when armed
(reporting `canceled = true`), then drain the channel.  Returns
`(canceled, successor state)`. -/
def PyTimer._stop (t : PyTimer) : Bool × PyTimer :=
  match t._dt with
  | none => (false, { t with c := t.c.drain })
  | some _ => (true, { t with _dt := none, _ver := t._ver + 1, c := t.c.drain })

/-- Outcome of `PyTimer._reset`: panic when the timer is armed, else
the rearmed state together with the `(dt, ver)` pair the spawned
`__fire` goroutine is bound to. -/
inductive ResetR where
  | panicked (msg : String)
  | ok (t : PyTimer) (spawned : ℚ × Int)
deriving DecidableEq, Repr

/-- `PyTimer._reset(dt)`: under `._mu`, require `_dt == INFINITY`
(else panic), set the deadline, bump `_ver` and spawn the fire task
bound to `(dt, self._ver)`. -/
def PyTimer._reset (t : PyTimer) (dt : ℚ) : ResetR :=
  match t._dt with
  | some _ => .panicked "Timer.reset: the timer is armed; must be stopped or expired"
  | none => .ok { t with _dt := some dt, _ver := t._ver + 1 } (dt, t._ver + 1)

/-- Outcome of the fire task body after `sleep(dt)`: `stale` when the
captured version no longer matches `_ver` (the timer was stopped or
reset meanwhile — nothing is delivered, state unchanged); `fired` when
it fires, carrying the send performed on `.c` (`none` when `_f` is
called instead of sending). -/
inductive FireR where
  | stale (t : PyTimer)
  | fired (t : PyTimer) (send : Option (SendCall ℚ))
deriving DecidableEq, Repr

/-- Extract the successor channel state out of a send outcome (the
fire task's send on a capacity-1 empty channel completes on the fast
path; the other constructors carry their states too). -/
def SendR.state {α : Type} : SendR α → pychan α
  | .panicked _ st => st
  | .done st _ => st
  | .blocked st _ => st

/-- `PyTimer.___fire(dt, ver)` after the sleep: under `._mu`, exit if
`_ver != ver`; else disarm and either send `now()` on `.c` (no `_f`)
or call `_f` outside `._mu`. -/
def PyTimer.___fire (t : PyTimer) (ver : Int) (tnow : ℚ) : FireR :=
  if t._ver ≠ ver then
    .stale t
  else
    let t1 : PyTimer := { t with _dt := none }
    if t1.hasF then
      .fired t1 none
    else
      match t1.c with
      | .nil => .fired t1 (some .blockForever)
      | .mk st => .fired { t1 with c := .mk (st.send tnow).state } (some (.run (st.send tnow)))

/-- `PyTicker` state: its capacity-1 channel, the interval and the
stop flag (field `__stop` in the source). -/
structure PyTicker where
  c     : chan ℚ
  _dt   : ℚ
  _stop : Bool
deriving DecidableEq, Repr

/-- Outcome of `PyTicker.__init__`. -/
inductive TickerInitR where
  | panicked (msg : String)
  | ok (tk : PyTicker)
deriving DecidableEq, Repr

/-- `PyTicker.__init__(dt)`: panic for `dt <= 0`, else a fresh ticker
with a 1-buffer channel (same as in Go) and the `__tick` goroutine
started. -/
def PyTicker.init (dt : ℚ) : TickerInitR :=
  if dt ≤ 0 then .panicked "ticker: dt <= 0"
  else .ok ⟨.mk (pychan.init ℚ 1), dt, false⟩

/-- `pytick(dt)`: for `dt <= 0` return the nil channel (contrary to
Ticker, no panic); else construct a Ticker and return its channel. -/
def pytick (dt : ℚ) : Except String (chan ℚ) :=
  if dt ≤ 0 then .ok .nil
  else
    match PyTicker.init dt with
    | .panicked m => .error m
    | .ok tk => .ok tk.c

/-! ## Scenario drivers and invariants -/

/-- One task sending a sequence of values in order, each send required
to complete immediately without waking anybody (the S2 producer on a
channel with enough buffer space and no parked receivers). -/
def sendSeq {α : Type} (st : pychan α) : List α → Option (pychan α)
  | [] => some st
  | v :: vs =>
    match st.send v with
    | .done st' none => sendSeq st' vs
    | _ => none

/-- One task calling `recv_` `n` times in a row, each call required to
complete immediately without waking anybody (the S2 drain loop).
Returns the observed `(rx, ok)` sequence and the final state. -/
def recvSeq {α : Type} (st : pychan α) : Nat → Option (List (Option α × Bool) × pychan α)
  | 0 => some ([], st)
  | n + 1 =>
    match st.recv_ with
    | .done rx st' none =>
      match recvSeq st' n with
      | some (l, stf) => some (rx :: l, stf)
      | none => none
    | _ => none

/-- The channel invariants as listed in the claim (spec §8 item 1 plus
the closed-channel clause): one of the two wait queues is empty, the
buffer is bounded by the capacity, a synchronous channel has an empty
buffer, and a closed channel has no parked waiters. -/
def ChanInv {α : Type} (st : pychan α) : Prop :=
  (st._sendq = [] ∨ st._recvq = []) ∧
  st._dataq.length ≤ st._cap ∧
  (st._cap = 0 → st._dataq = []) ∧
  (st._closed = true → st._sendq = [] ∧ st._recvq = [])

/-- The full inductive channel invariant (spec §3): `ChanInv` together
with "if the buffer is non-full, `sendq` is empty" and "if the buffer
is non-empty, `recvq` is empty". -/
def Inv {α : Type} (st : pychan α) : Prop :=
  ChanInv st ∧
  (st._dataq.length < st._cap → st._sendq = []) ∧
  (st._dataq ≠ [] → st._recvq = [])

/-- Whether a select case is the default case. -/
def isdef {α : Type} : SelCase α → Bool
  | .pydefault => true
  | _ => false

/-- Original index of the first default case in a (permuted) case
list, if any. -/
def firstDefault {α : Type} : List (Nat × SelCase α) → Option Nat
  | [] => none
  | (n, .pydefault) :: _ => some n
  | _ :: rest => firstDefault rest

/-! ## Helper lemmas -/

theorem _dequeWaiter_nil {w : Type} (f : w → Bool) : _dequeWaiter f [] = (none, []) := rfl

theorem _dequeWaiter_none {w : Type} (f : w → Bool) {q q' : List w}
    (h : _dequeWaiter f q = (none, q')) : q' = [] := by
  induction q with
  | nil => simpa [_dequeWaiter] using h.symm
  | cons x xs ih =>
    by_cases hx : f x
    · simp [_dequeWaiter, hx] at h
    · simp only [_dequeWaiter, hx, if_neg, Bool.false_eq_true, if_false] at h
      exact ih h

theorem _dequeWaiter_some_length {w : Type} (f : w → Bool) {q q' : List w} {x : w}
    (h : _dequeWaiter f q = (some x, q')) : q'.length < q.length := by
  induction q generalizing q' with
  | nil => simp [_dequeWaiter] at h
  | cons y xs ih =>
    by_cases hy : f y
    · simp [_dequeWaiter, hy] at h
      simp [h.2.symm]
    · simp only [_dequeWaiter, hy, Bool.false_eq_true, if_false] at h
      exact Nat.lt_trans (ih h) (by simp)

theorem _drainq_eq_self {w : Type} (f : w → Bool) {q : List w}
    (h : ∀ x ∈ q, f x = true) : _drainq f q = q := by
  induction q with
  | nil => rfl
  | cons x xs ih =>
    have hx : f x = true := h x (by simp)
    simp [_drainq, hx, ih (fun y hy => h y (by simp [hy]))]

theorem _mem_drainq {w : Type} (f : w → Bool) {q : List w} {x : w}
    (hx : x ∈ q) (hf : f x = true) : x ∈ _drainq f q := by
  induction q with
  | nil => simp at hx
  | cons y xs ih =>
    rcases List.mem_cons.mp hx with h | h
    · subst h; simp [_drainq, hf]
    · by_cases hy : f y
      · simp [_drainq, hy]; right; exact ih h
      · simp only [_drainq, hy, Bool.false_eq_true, if_false]
        exact ih h

/-- Sequential sends into a buffered channel with room and no parked
waiters: every send succeeds on the fast path and values accumulate in
FIFO order at the back of the buffer. -/
theorem sendSeq_buffered {α : Type} (C : Nat) (d vs : List α)
    (h : d.length + vs.length ≤ C) :
    sendSeq (⟨C, d, [], [], false⟩ : pychan α) vs = some ⟨C, d ++ vs, [], [], false⟩ := by
  induction vs generalizing d with
  | nil => simp [sendSeq]
  | cons v vs ih =>
    have hC : ¬ C = 0 := by simp at h; omega
    have hfull : ¬ C ≤ d.length := by simp at h; omega
    have ih' := ih (d ++ [v]) (by simp at h ⊢; omega)
    simp [sendSeq, pychan.send, pychan._trysend, hC, hfull, _dequeWaiter, ih']

/-- Repeated `recv_` on a closed empty channel: every call returns
`(None, False)` and the state never changes. -/
theorem recvSeq_closed_empty {α : Type} (C : Nat) (m : Nat) :
    recvSeq (⟨C, [], [], [], true⟩ : pychan α) m =
      some (List.replicate m ((none : Option α), false), ⟨C, [], [], [], true⟩) := by
  induction m with
  | zero => simp [recvSeq]
  | succ m ihm =>
    simp only [recvSeq, pychan.recv_, pychan._tryrecv]
    simp [ihm, List.replicate_succ]

/-- Draining a closed channel with no parked waiters: the buffered
values come out `(vᵢ, true)` in FIFO order, then every further call
returns `(None, False)` with the state unchanged. -/
theorem recvSeq_closed {α : Type} (C : Nat) (d : List α) (m : Nat) :
    recvSeq (⟨C, d, [], [], true⟩ : pychan α) (d.length + m) =
      some (d.map (fun v => (some v, true)) ++
              List.replicate m ((none : Option α), false),
            ⟨C, [], [], [], true⟩) := by
  induction d with
  | nil => simpa using recvSeq_closed_empty C m
  | cons v d ihd =>
    have hn : (v :: d).length + m = (d.length + m) + 1 := by simp [Nat.succ_add]
    rw [hn]
    simp [recvSeq, pychan.recv_, pychan._tryrecv, _dequeWaiter, ihd]

/-- C1: for a buffered channel of capacity `C ≥ n` on which a sender
sends `v₁…vₙ` in order and then closes the channel, a receiver calling
`recv_` repeatedly observes exactly `(v₁,true),…,(vₙ,true)` in that
order, followed by `(zero,false)` on every subsequent call — no value
lost, duplicated or reordered (spec S2, FIFO delivery). -/
theorem C1_buffered_fifo_closed_drain {α : Type} (C : Nat) (vs : List α) (m : Nat)
    (h : vs.length ≤ C) :
    sendSeq (pychan.init α C) vs = some ⟨C, vs, [], [], false⟩ ∧
    pychan.close (⟨C, vs, [], [], false⟩ : pychan α) = .ok ⟨C, vs, [], [], true⟩ [] [] ∧
    recvSeq (⟨C, vs, [], [], true⟩ : pychan α) (vs.length + m) =
      some (vs.map (fun v => (some v, true)) ++
              List.replicate m ((none : Option α), false),
            ⟨C, [], [], [], true⟩) := by
  refine ⟨?_, ?_, recvSeq_closed C vs m⟩
  · simpa [pychan.init] using sendSeq_buffered C [] vs (by simpa using h)
  · simp [pychan.close, _drainq]

/-- C1 witness: the literal S2 scenario — capacity 3, values 7, 8, 9,
then close, then five `recv_` calls observing
`(7,true),(8,true),(9,true),(0,false),(0,false)`. -/
theorem C1_witness :
    ([7, 8, 9] : List Nat).length ≤ 3 ∧
    sendSeq (pychan.init Nat 3) [7, 8, 9] = some ⟨3, [7, 8, 9], [], [], false⟩ ∧
    pychan.close (⟨3, [7, 8, 9], [], [], false⟩ : pychan Nat) =
      .ok ⟨3, [7, 8, 9], [], [], true⟩ [] [] ∧
    recvSeq (⟨3, [7, 8, 9], [], [], true⟩ : pychan Nat) 5 =
      some ([(some 7, true), (some 8, true), (some 9, true), (none, false), (none, false)],
            ⟨3, [], [], [], true⟩) := by
  have h := C1_buffered_fifo_closed_drain 3 [7, 8, 9] 2 (by decide)
  exact ⟨by decide, h.1, h.2.1, h.2.2⟩

/-- C2: `recv_` on a channel that is closed and has an empty buffer
returns `(zero, false)` immediately (`.done`, not `.blocked`) with
state untouched; internally the `_tryrecv` fast path returns
`((None, False), True)` — the `.ok` constructor is the outer "try
succeeded" flag, the `(none, false)` pair the inner "value was really
sent" result. -/
theorem C2_recv_closed_empty {α : Type} (st : pychan α)
    (hc : st._closed = true) (he : st._dataq = []) :
    st._tryrecv = .ok (none, false) st none ∧
    st.recv_ = .done (none, false) st none := by
  obtain ⟨cap, dataq, recvq, sendq, closed⟩ := st
  subst hc
  simp only at he
  subst he
  constructor
  · simp [pychan._tryrecv]
  · simp [pychan.recv_, pychan._tryrecv]

/-- C2 witness: a closed empty channel of capacity 3. -/
theorem C2_witness :
    (⟨3, [], [], [], true⟩ : pychan Nat)._closed = true ∧
    (⟨3, [], [], [], true⟩ : pychan Nat)._dataq = [] ∧
    (⟨3, [], [], [], true⟩ : pychan Nat)._tryrecv =
      .ok (none, false) ⟨3, [], [], [], true⟩ none ∧
    (⟨3, [], [], [], true⟩ : pychan Nat).recv_ =
      .done (none, false) ⟨3, [], [], [], true⟩ none := by
  have h := C2_recv_closed_empty (⟨3, [], [], [], true⟩ : pychan Nat) rfl rfl
  exact ⟨rfl, rfl, h.1, h.2⟩

/-- When `_trysend` fails (caller will park), the channel was open and
stays so, and neither the buffer nor `_sendq` was touched (only losing
receive-waiters may have been pruned). -/
theorem _trysend_notok_facts {α : Type} {st st' : pychan α} {v : α}
    (h : st._trysend v = .notok st') :
    st'._cap = st._cap ∧ st'._dataq = st._dataq ∧ st'._sendq = st._sendq ∧
    st'._closed = false ∧ st._closed = false := by
  unfold pychan._trysend at h
  split at h
  · cases h
  · next hcl =>
    have hcl' : st._closed = false := by
      cases hc : st._closed
      · rfl
      · exact absurd hc hcl
    split at h
    · split at h
      · cases h; exact ⟨rfl, rfl, rfl, hcl', hcl'⟩
      · cases h
    · split at h
      · cases h; exact ⟨rfl, rfl, rfl, hcl', hcl'⟩
      · split at h <;> cases h

/-- C3: `send(v)` panics with "send on closed channel" when the channel
is already closed at call time; and when the sender parked in `sendq`
and the channel is closed while it waits, its waiter is drained with
`succeeded = false`, the post-wakeup check panics with the same
message, the value never reaches the buffer, and every receiver woken
by that close gets `(zero, false)` — so `v` is delivered to nobody. -/
theorem C3_send_closed_panics {α : Type} (st st1 : pychan α) (v : α) (me : _SendWaiting α) :
    (st._closed = true → st.send v = .panicked "send on closed channel" st) ∧
    (st.send v = .blocked st1 me →
      me.obj = v ∧ me.canWin = true ∧
      _sendOnWake false = some "send on closed channel" ∧
      ∃ st2 rwakes swakes, st1.close = .ok st2 rwakes swakes ∧
        (me, false) ∈ swakes ∧
        st2._dataq = st._dataq ∧
        (∀ p ∈ rwakes, (p.2 : Option α × Bool) = (none, false))) := by
  constructor
  · intro hc
    obtain ⟨cap, dataq, recvq, sendq, closed⟩ := st
    simp only at hc
    subst hc
    simp [pychan.send, pychan._trysend]
  · intro hb
    unfold pychan.send at hb
    rcases htr : st._trysend v with ⟨m, s⟩ | ⟨s, w⟩ | s <;> rw [htr] at hb <;> try cases hb
    -- remaining case: _trysend returned notok s; the sender parked
    obtain ⟨hcap, hdataq, hsendq, hscl, hcl⟩ := _trysend_notok_facts htr
    refine ⟨rfl, rfl, rfl, ?_⟩
    refine ⟨{ s with _closed := true, _recvq := [], _sendq := [] },
      (_drainq (fun w => w.canWin) s._recvq).map (fun r => (r, (none : Option α), false)),
      (_drainq (fun w => w.canWin) (s._sendq ++ [⟨true, v⟩])).map (fun s => (s, false)),
      ?_, ?_, ?_, ?_⟩
    · simp [pychan.close, hscl]
    · apply List.mem_map_of_mem (fun s => (s, false))
      exact _mem_drainq _ (by simp) rfl
    · simpa using hdataq
    · intro p hp
      obtain ⟨r, _, rfl⟩ := List.mem_map.mp hp
      rfl

/-- C3 witness: send on a concrete closed channel panics; a sender
parked on a fresh synchronous channel is drained by close with
`succeeded=false`, panics on wakeup, and its value 7 reaches neither
the buffer nor a receiver. -/
theorem C3_witness :
    (⟨0, [], [], [], true⟩ : pychan Nat).send 7 =
      .panicked "send on closed channel" ⟨0, [], [], [], true⟩ ∧
    ((⟨true, 7⟩ : _SendWaiting Nat).obj = 7 ∧
      (⟨true, 7⟩ : _SendWaiting Nat).canWin = true ∧
      _sendOnWake false = some "send on closed channel" ∧
      ∃ st2 rwakes swakes,
        (⟨0, [], [], [⟨true, 7⟩], false⟩ : pychan Nat).close = .ok st2 rwakes swakes ∧
        ((⟨true, 7⟩ : _SendWaiting Nat), false) ∈ swakes ∧
        st2._dataq = (pychan.init Nat 0)._dataq ∧
        (∀ p ∈ rwakes, (p.2 : Option Nat × Bool) = (none, false))) :=
  ⟨(C3_send_closed_panics (⟨0, [], [], [], true⟩ : pychan Nat)
      (⟨0, [], [], [], true⟩ : pychan Nat) 7 ⟨true, 7⟩).1 rfl,
   (C3_send_closed_panics (pychan.init Nat 0)
      (⟨0, [], [], [⟨true, 7⟩], false⟩ : pychan Nat) 7 ⟨true, 7⟩).2 rfl⟩

/-- C4: `close()` panics with "close of nil channel" on the nil channel
and "close of closed channel" on a closed channel; on an open channel
it sets `closed`, leaves both wait queues empty, and — when every
queued waiter can still win its group, i.e. its task is really still
parked — wakes every parked receiver with `(zero, ok=false)` and every
parked sender with `succeeded=false`, in queue order. -/
theorem C4_close_semantics {α : Type} (st : pychan α)
    (hAllR : ∀ w ∈ st._recvq, w.canWin = true)
    (hAllS : ∀ w ∈ st._sendq, w.canWin = true) :
    (chan.close (.nil : chan α) = .panicked "close of nil channel") ∧
    (st._closed = true → st.close = .panicked "close of closed channel") ∧
    (st._closed = false →
      st.close = .ok { st with _closed := true, _recvq := [], _sendq := [] }
        (st._recvq.map (fun r => (r, (none : Option α), false)))
        (st._sendq.map (fun s => (s, false)))) := by
  refine ⟨rfl, ?_, ?_⟩
  · intro hc
    simp [pychan.close, hc]
  · intro hc
    simp [pychan.close, hc, _drainq_eq_self _ hAllR, _drainq_eq_self _ hAllS]

/-- A fresh channel satisfies the full invariant. -/
theorem Inv_init (α : Type) (C : Nat) : Inv (pychan.init α C) := by
  refine ⟨⟨Or.inl rfl, ?_, fun _ => rfl, fun _ => ⟨rfl, rfl⟩⟩, fun _ => rfl, fun h => absurd rfl h⟩
  simp [pychan.init]

/-- The full invariant implies the invariants listed in the claim. -/
theorem Inv_chanInv {α : Type} {st : pychan α} (hI : Inv st) : ChanInv st := hI.1

/-- `_trysend` success preserves the full channel invariant. -/
theorem _trysend_ok_inv {α : Type} {st st' : pychan α} {v : α}
    {w : Option (_RecvWaiting α × Option α × Bool)}
    (hI : Inv st) (h : st._trysend v = .ok st' w) : Inv st' := by
  obtain ⟨⟨hqs, hlen, hcap0, hclq⟩, hfull, hne⟩ := hI
  obtain ⟨cap, dataq, recvq, sendq, closed⟩ := st
  simp only at hqs hlen hcap0 hclq hfull hne
  unfold pychan._trysend at h
  cases closed
  · by_cases hc0 : cap = 0
    · -- synchronous channel
      subst hc0
      have hd0 : dataq = [] := hcap0 rfl
      subst hd0
      rcases heq : _dequeWaiter (fun w : _RecvWaiting α => w.canWin) recvq with ⟨o, q⟩
      cases o with
      | none => simp [heq] at h
      | some r =>
        simp [heq] at h
        obtain ⟨rfl, rfl⟩ := h
        have hsq : sendq = [] := by
          rcases hqs with hs | hr
          · exact hs
          · rw [hr] at heq; simp [_dequeWaiter] at heq
        exact ⟨⟨Or.inl hsq, by simp, fun _ => rfl, by simp⟩, by simp, by simp⟩
    · -- buffered channel
      by_cases hful : cap ≤ dataq.length
      · simp [hc0, hful] at h
      · rcases heq : _dequeWaiter (fun w : _RecvWaiting α => w.canWin) recvq with ⟨o, q⟩
        cases o with
        | some r =>
          simp [heq, hc0, hful] at h
          obtain ⟨rfl, rfl⟩ := h
          have hd0 : dataq = [] := by
            by_cases hd : dataq = []
            · exact hd
            · rw [hne hd] at heq; simp [_dequeWaiter] at heq
          subst hd0
          have hsq : sendq = [] := hfull (by omega)
          exact ⟨⟨Or.inl hsq, by simp, fun hcc => absurd hcc hc0, by simp⟩,
                 fun _ => hsq, by simp⟩
        | none =>
          have hq0 : q = [] := _dequeWaiter_none _ heq
          subst hq0
          simp [heq, hc0, hful] at h
          obtain ⟨rfl, rfl⟩ := h
          refine ⟨⟨Or.inr rfl, by simp; omega, fun hcc => absurd hcc hc0, by simp⟩,
                  ?_, by simp⟩
          intro _
          exact hfull (by omega)
  · simp at h

/-- `_trysend` failure preserves the full channel invariant, and so
does parking a send-waiter afterwards (as `send` and the select
subscribe pass do). -/
theorem _trysend_notok_inv {α : Type} {st st' : pychan α} {v : α}
    (hI : Inv st) (h : st._trysend v = .notok st') :
    Inv st' ∧ ∀ wtr : _SendWaiting α, Inv { st' with _sendq := st'._sendq ++ [wtr] } := by
  obtain ⟨⟨hqs, hlen, hcap0, hclq⟩, hfull, hne⟩ := hI
  obtain ⟨cap, dataq, recvq, sendq, closed⟩ := st
  simp only at hqs hlen hcap0 hclq hfull hne
  unfold pychan._trysend at h
  cases closed
  · by_cases hc0 : cap = 0
    · -- synchronous channel: no viable receiver, recvq drained to []
      subst hc0
      have hd0 : dataq = [] := hcap0 rfl
      subst hd0
      rcases heq : _dequeWaiter (fun w : _RecvWaiting α => w.canWin) recvq with ⟨o, q⟩
      cases o with
      | some r => simp [heq] at h
      | none =>
        have hq0 : q = [] := _dequeWaiter_none _ heq
        subst hq0
        simp [heq] at h
        subst h
        refine ⟨⟨⟨Or.inr rfl, by simp, fun _ => rfl, by simp⟩, by simp, fun _ => rfl⟩, ?_⟩
        intro wtr
        exact ⟨⟨Or.inr rfl, by simp, fun _ => rfl, by simp⟩, by simp, fun _ => rfl⟩
    · -- buffered channel: buffer full, state untouched
      by_cases hful : cap ≤ dataq.length
      · rw [if_neg (by simp), if_neg (by simpa using hc0), if_pos (by simpa using hful)] at h
        cases h
        have hdne : dataq ≠ [] := by
          intro hd
          rw [hd] at hful
          simp at hful
          omega
        have hrq : recvq = [] := hne hdne
        subst hrq
        refine ⟨⟨⟨hqs, hlen, hcap0, by simp⟩, hfull, fun _ => rfl⟩, ?_⟩
        intro wtr
        refine ⟨⟨Or.inr rfl, hlen, fun hcc => absurd hcc hc0, by simp⟩, ?_, fun _ => rfl⟩
        intro hlt
        simp at hlt
        omega
      · rcases heq : _dequeWaiter (fun w : _RecvWaiting α => w.canWin) recvq with ⟨o, q⟩
        cases o <;> simp [heq, hc0, hful] at h
  · simp at h

/-- `_tryrecv` success preserves the full channel invariant. -/
theorem _tryrecv_ok_inv {α : Type} {st st' : pychan α} {rx : Option α × Bool}
    {w : Option (_SendWaiting α × Bool)}
    (hI : Inv st) (h : st._tryrecv = .ok rx st' w) : Inv st' := by
  obtain ⟨⟨hqs, hlen, hcap0, hclq⟩, hfull, hne⟩ := hI
  obtain ⟨cap, dataq, recvq, sendq, closed⟩ := st
  simp only at hqs hlen hcap0 hclq hfull hne
  unfold pychan._tryrecv at h
  cases dataq with
  | nil =>
    cases closed
    · rcases heq : _dequeWaiter (fun w : _SendWaiting α => w.canWin) sendq with ⟨o, q⟩
      cases o with
      | none => simp [heq] at h
      | some s =>
        simp [heq] at h
        obtain ⟨rfl, rfl, rfl⟩ := h
        have hrq : recvq = [] := by
          rcases hqs with hs | hr
          · rw [hs] at heq; simp [_dequeWaiter] at heq
          · exact hr
        refine ⟨⟨Or.inr hrq, by simp, fun _ => rfl, by simp⟩, ?_, by simp⟩
        intro hlt
        rw [hfull (by simpa using hlt)] at heq
        simp [_dequeWaiter] at heq
    · simp at h
      obtain ⟨rfl, rfl, rfl⟩ := h
      exact ⟨⟨hqs, hlen, hcap0, hclq⟩, hfull, hne⟩
  | cons rx0 rest =>
    have hrq : recvq = [] := hne (by simp)
    subst hrq
    rcases heq : _dequeWaiter (fun w : _SendWaiting α => w.canWin) sendq with ⟨o, q⟩
    cases o with
    | some s =>
      simp [heq] at h
      obtain ⟨rfl, rfl, rfl⟩ := h
      refine ⟨⟨Or.inr rfl, by simp at hlen ⊢; omega,
              fun hcc => absurd (hcap0 hcc) (by simp), ?_⟩, ?_, fun _ => rfl⟩
      · intro hcc
        rw [(hclq hcc).1] at heq
        simp [_dequeWaiter] at heq
      · intro hlt
        rw [hfull (by simp at hlen hlt ⊢; omega)] at heq
        simp [_dequeWaiter] at heq
    | none =>
      have hq0 : q = [] := _dequeWaiter_none _ heq
      subst hq0
      simp [heq] at h
      obtain ⟨rfl, rfl, rfl⟩ := h
      exact ⟨⟨Or.inl rfl, by simp at hlen ⊢; omega,
             fun hcc => absurd (hcap0 hcc) (by simp), fun _ => ⟨rfl, rfl⟩⟩,
             fun _ => rfl, fun _ => rfl⟩

/-- `_tryrecv` failure preserves the full channel invariant, and so
does parking a recv-waiter afterwards (as `recv_` and the select
subscribe pass do). -/
theorem _tryrecv_notok_inv {α : Type} {st st' : pychan α}
    (hI : Inv st) (h : st._tryrecv = .notok st') :
    Inv st' ∧ ∀ wtr : _RecvWaiting α, Inv { st' with _recvq := st'._recvq ++ [wtr] } := by
  obtain ⟨⟨hqs, hlen, hcap0, hclq⟩, hfull, hne⟩ := hI
  obtain ⟨cap, dataq, recvq, sendq, closed⟩ := st
  simp only at hqs hlen hcap0 hclq hfull hne
  unfold pychan._tryrecv at h
  cases dataq with
  | nil =>
    cases closed
    · rcases heq : _dequeWaiter (fun w : _SendWaiting α => w.canWin) sendq with ⟨o, q⟩
      cases o with
      | some s => simp [heq] at h
      | none =>
        have hq0 : q = [] := _dequeWaiter_none _ heq
        subst hq0
        simp [heq] at h
        subst h
        refine ⟨⟨⟨Or.inl rfl, by simp, fun _ => rfl, by simp⟩, fun _ => rfl, by simp⟩, ?_⟩
        intro wtr
        exact ⟨⟨Or.inl rfl, by simp, fun _ => rfl, by simp⟩, fun _ => rfl, by simp⟩
    · simp at h
  | cons rx0 rest =>
    rcases heq : _dequeWaiter (fun w : _SendWaiting α => w.canWin) sendq with ⟨o, q⟩
    cases o <;> simp [heq] at h

/-- When `send` panics the state is unchanged (the lock is just
released before panicking). -/
theorem send_panicked_state {α : Type} {st st' : pychan α} {v : α} {m : String}
    (h : st.send v = .panicked m st') : st' = st := by
  unfold pychan.send at h
  rcases htr : st._trysend v with ⟨m0, s⟩ | ⟨s, w⟩ | s <;> rw [htr] at h <;> cases h
  unfold pychan._trysend at htr
  split at htr
  · cases htr; rfl
  · split at htr
    · split at htr <;> cases htr
    · split at htr
      · cases htr
      · split at htr <;> cases htr

/-- `pychan.close` success preserves the full channel invariant. -/
theorem close_ok_inv {α : Type} {st st' : pychan α}
    {rwakes : List (_RecvWaiting α × Option α × Bool)} {swakes : List (_SendWaiting α × Bool)}
    (hI : Inv st) (h : st.close = .ok st' rwakes swakes) : Inv st' := by
  obtain ⟨⟨hqs, hlen, hcap0, hclq⟩, hfull, hne⟩ := hI
  unfold pychan.close at h
  split at h
  · cases h
  · cases h
    exact ⟨⟨Or.inl rfl, hlen, hcap0, fun _ => ⟨rfl, rfl⟩⟩, fun _ => rfl, fun _ => rfl⟩

/-- C5: every channel operation — `_trysend`/`_tryrecv` (the paths
select's poll uses), parking a waiter after a failed try (the paths
`send`/`recv_` and select's subscribe pass use), the full `send`,
`recv_` and `close` — preserves the full inductive channel invariant
`Inv`, which contains the claimed invariants `ChanInv`: `sendq` empty
or `recvq` empty, `|buffer| ≤ capacity`, capacity 0 ⇒ buffer empty,
and closed ⇒ both queues empty.  A fresh channel satisfies `Inv`, so
`ChanInv` holds at every observation point between operations. -/
theorem C5_operations_preserve_invariants {α : Type} (st : pychan α) (hI : Inv st) :
    (∀ C, Inv (pychan.init α C)) ∧
    ChanInv st ∧
    (∀ v m st', st._trysend v = .panicked m st' → Inv st') ∧
    (∀ v st' w, st._trysend v = .ok st' w → Inv st') ∧
    (∀ v st', st._trysend v = .notok st' → Inv st' ∧
      ∀ wtr, Inv { st' with _sendq := st'._sendq ++ [wtr] }) ∧
    (∀ rx st' w, st._tryrecv = .ok rx st' w → Inv st') ∧
    (∀ st', st._tryrecv = .notok st' → Inv st' ∧
      ∀ wtr, Inv { st' with _recvq := st'._recvq ++ [wtr] }) ∧
    (∀ v m st', st.send v = .panicked m st' → Inv st') ∧
    (∀ v st' w, st.send v = .done st' w → Inv st') ∧
    (∀ v st' me, st.send v = .blocked st' me → Inv st') ∧
    (∀ rx st' w, st.recv_ = .done rx st' w → Inv st') ∧
    (∀ st' me, st.recv_ = .blocked st' me → Inv st') ∧
    (∀ st' rwakes swakes, st.close = .ok st' rwakes swakes → Inv st') := by
  refine ⟨Inv_init α, Inv_chanInv hI, ?_, ?_, ?_, ?_, ?_, ?_, ?_, ?_, ?_, ?_, ?_⟩
  · intro v m st' h
    unfold pychan._trysend at h
    split at h
    · cases h; exact hI
    · split at h
      · split at h <;> cases h
      · split at h
        · cases h
        · split at h <;> cases h
  · intro v st' w h
    exact _trysend_ok_inv hI h
  · intro v st' h
    exact _trysend_notok_inv hI h
  · intro rx st' w h
    exact _tryrecv_ok_inv hI h
  · intro st' h
    exact _tryrecv_notok_inv hI h
  · intro v m st' h
    rw [send_panicked_state h]
    exact hI
  · intro v st' w h
    unfold pychan.send at h
    rcases htr : st._trysend v with ⟨m0, s⟩ | ⟨s, w0⟩ | s <;> rw [htr] at h <;> cases h
    exact _trysend_ok_inv hI htr
  · intro v st' me h
    unfold pychan.send at h
    rcases htr : st._trysend v with ⟨m0, s⟩ | ⟨s, w0⟩ | s <;> rw [htr] at h <;> cases h
    exact (_trysend_notok_inv hI htr).2 _
  · intro rx st' w h
    unfold pychan.recv_ at h
    rcases htr : st._tryrecv with ⟨rx0, s, w0⟩ | s <;> rw [htr] at h <;> cases h
    exact _tryrecv_ok_inv hI htr
  · intro st' me h
    unfold pychan.recv_ at h
    rcases htr : st._tryrecv with ⟨rx0, s, w0⟩ | s <;> rw [htr] at h <;> cases h
    exact (_tryrecv_notok_inv hI htr).2 _
  · intro st' rwakes swakes h
    exact close_ok_inv hI h

/-- C5 witness: a fast-path send into a fresh capacity-1 channel; both
the pre- and post-state satisfy the full invariant, and the claimed
invariants hold of the pre-state. -/
theorem C5_witness :
    Inv (⟨1, [5], [], [], false⟩ : pychan Nat) ∧
    ChanInv (⟨1, [], [], [], false⟩ : pychan Nat) := by
  have h := C5_operations_preserve_invariants (⟨1, [], [], [], false⟩ : pychan Nat)
    ⟨⟨Or.inl rfl, by simp, by simp, by simp⟩, fun _ => rfl, by simp⟩
  exact ⟨h.2.2.2.2.2.2.2.2.1 5 ⟨1, [5], [], [], false⟩ none rfl, h.2.1⟩

/-- C4 witness: closing an open synchronous channel with two parked
receivers wakes both with `(zero, false)` and empties the queues; the
nil and double-close panics at concrete channels. -/
theorem C4_witness :
    chan.close (.nil : chan Nat) = .panicked "close of nil channel" ∧
    (⟨0, [], [], [], true⟩ : pychan Nat).close = .panicked "close of closed channel" ∧
    (⟨0, [], [⟨true⟩, ⟨true⟩], [], false⟩ : pychan Nat).close =
      .ok ⟨0, [], [], [], true⟩ [(⟨true⟩, none, false), (⟨true⟩, none, false)] [] := by
  refine ⟨(C4_close_semantics (pychan.init Nat 0) (by simp [pychan.init]) (by simp [pychan.init])).1,
         (C4_close_semantics (⟨0, [], [], [], true⟩ : pychan Nat) (by simp) (by simp)).2.1 rfl,
         ?_⟩
  exact (C4_close_semantics (⟨0, [], [⟨true⟩, ⟨true⟩], [], false⟩ : pychan Nat)
    (by decide) (by simp)).2.2 rfl

/-- Once a default has been recorded, a poll pass that completes
without a ready case reports that same default (any further default
would have panicked). -/
theorem pollCases_some_default {α : Type} {env e : List (pychan α)} {v : Nat} {k l : Nat}
    {xs : List (Nat × SelCase α)} {nd : Option Nat}
    (h : pollCases env (some v) k xs = .nopoll e nd l) : nd = some v := by
  induction xs generalizing env k with
  | nil => simp only [pollCases] at h; cases h; rfl
  | cons hd rest ih =>
    obtain ⟨n, c⟩ := hd
    cases c with
    | pydefault => simp [pollCases] at h
    | send cno tx =>
      cases cno with
      | none => simp only [pollCases] at h; exact ih h
      | some i =>
        simp only [pollCases] at h
        cases henv : env.get? i with
        | none => simp only [henv] at h; exact ih h
        | some ch =>
          simp only [henv] at h
          cases htr : ch._trysend tx with
          | panicked m s => simp only [htr] at h; cases h
          | ok s w => simp only [htr] at h; cases h
          | notok s => simp only [htr] at h; exact ih h
    | recv cno commaok =>
      cases cno with
      | none => simp only [pollCases] at h; exact ih h
      | some i =>
        simp only [pollCases] at h
        cases henv : env.get? i with
        | none => simp only [henv] at h; exact ih h
        | some ch =>
          simp only [henv] at h
          cases htr : ch._tryrecv with
          | ok rx s w => simp only [htr] at h; cases h
          | notok s => simp only [htr] at h; exact ih h

/-- A poll pass that starts with no default recorded and completes
without a ready case reports the first default of the case list. -/
theorem pollCases_none_firstDefault {α : Type} {env e : List (pychan α)} {k l : Nat}
    {xs : List (Nat × SelCase α)} {nd : Option Nat}
    (h : pollCases env none k xs = .nopoll e nd l) : nd = firstDefault xs := by
  induction xs generalizing env k with
  | nil => simp only [pollCases] at h; cases h; rfl
  | cons hd rest ih =>
    obtain ⟨n, c⟩ := hd
    cases c with
    | pydefault =>
      simp only [pollCases] at h
      exact pollCases_some_default h
    | send cno tx =>
      cases cno with
      | none => simp only [pollCases] at h; exact ih h
      | some i =>
        simp only [pollCases] at h
        cases henv : env.get? i with
        | none => simp only [henv] at h; exact ih h
        | some ch =>
          simp only [henv] at h
          cases htr : ch._trysend tx with
          | panicked m s => simp only [htr] at h; cases h
          | ok s w => simp only [htr] at h; cases h
          | notok s => simp only [htr] at h; exact ih h
    | recv cno commaok =>
      cases cno with
      | none => simp only [pollCases] at h; exact ih h
      | some i =>
        simp only [pollCases] at h
        cases henv : env.get? i with
        | none => simp only [henv] at h; exact ih h
        | some ch =>
          simp only [henv] at h
          cases htr : ch._tryrecv with
          | ok rx s w => simp only [htr] at h; cases h
          | notok s => simp only [htr] at h; exact ih h

/-- When the case list contains exactly one default case, the first
default is that one. -/
theorem firstDefault_of_unique {α : Type} {xs : List (Nat × SelCase α)} {d : Nat}
    (hmem : (d, SelCase.pydefault) ∈ xs)
    (hone : (xs.filter (fun c => isdef c.2)).length = 1) :
    firstDefault xs = some d := by
  induction xs with
  | nil => simp at hmem
  | cons hd rest ih =>
    obtain ⟨n, c⟩ := hd
    cases c with
    | pydefault =>
      simp only [List.filter_cons, isdef, if_pos, List.length_cons,
        Nat.add_eq_zero, Nat.add_left_eq_self] at hone
      have hrest : rest.filter (fun c => isdef c.2) = [] :=
        List.length_eq_zero.mp (by simpa using hone)
      rcases List.mem_cons.mp hmem with hh | hh
      · cases hh; rfl
      · exfalso
        have hin : (d, SelCase.pydefault) ∈ rest.filter (fun c => isdef c.2) :=
          List.mem_filter.mpr ⟨hh, rfl⟩
        rw [hrest] at hin
        simp at hin
    | send cno tx =>
      have hmem' : (d, SelCase.pydefault) ∈ rest := by
        rcases List.mem_cons.mp hmem with hh | hh
        · cases hh
        · exact hh
      have hone' : (rest.filter (fun c => isdef c.2)).length = 1 := by
        simpa [List.filter_cons, isdef] using hone
      exact ih hmem' hone'
    | recv cno commaok =>
      have hmem' : (d, SelCase.pydefault) ∈ rest := by
        rcases List.mem_cons.mp hmem with hh | hh
        · cases hh
        · exact hh
      have hone' : (rest.filter (fun c => isdef c.2)).length = 1 := by
        simpa [List.filter_cons, isdef] using hone
      exact ih hmem' hone'

/-- C6: for every select call whose (permuted) case list contains
exactly one default case, if the poll pass finds no ready send/recv
case, select returns `(original index of the default, None)` without
blocking (`.done`, never `.blockForever` or `.proceed`).  The poll
outcome hypothesis is exactly the source's first pass finding no ready
case. -/
theorem C6_select_default {α : Type} (env env' : List (pychan α))
    (ncasev : List (Nat × SelCase α)) (d k : Nat) (nd : Option Nat)
    (hmem : (d, SelCase.pydefault) ∈ ncasev)
    (hone : (ncasev.filter (fun c => isdef c.2)).length = 1)
    (hpoll : pollCases env none 0 ncasev = .nopoll env' nd k) :
    pyselect1 env ncasev = .done d .nothing env' := by
  have hnd : nd = some d := by
    rw [pollCases_none_firstDefault hpoll, firstDefault_of_unique hmem hone]
  rw [hnd] at hpoll
  unfold pyselect1
  rw [hpoll]

/-- C6 witness: the literal S3 scenario — `select(C.recv, default)` on
an empty capacity-0 channel with no sender returns `(1, None)`
immediately. -/
theorem C6_witness :
    pyselect1 [pychan.init Nat 0]
        [(0, SelCase.recv (some 0) false), (1, SelCase.pydefault)] =
      .done 1 .nothing [⟨0, [], [], [], false⟩] :=
  C6_select_default [pychan.init Nat 0] [⟨0, [], [], [], false⟩]
    [(0, SelCase.recv (some 0) false), (1, SelCase.pydefault)] 1 1 (some 1)
    (by decide) (by decide) rfl

/-- A completed (no ready case) poll prefix composes with the rest of
the case list. -/
theorem pollCases_append_nopoll {α : Type} {env e : List (pychan α)} {nd n : Option Nat}
    {k l : Nat} {xs : List (Nat × SelCase α)} (ys : List (Nat × SelCase α))
    (h : pollCases env nd k xs = .nopoll e n l) :
    pollCases env nd k (xs ++ ys) = pollCases e n l ys := by
  induction xs generalizing env nd k with
  | nil => simp only [pollCases] at h; cases h; rfl
  | cons hd rest ih =>
    obtain ⟨n0, c⟩ := hd
    cases c with
    | pydefault =>
      cases nd with
      | some v => simp [pollCases] at h
      | none =>
        simp only [List.cons_append, pollCases] at h ⊢
        exact ih h
    | send cno tx =>
      cases cno with
      | none => simp only [List.cons_append, pollCases] at h ⊢; exact ih h
      | some i =>
        simp only [List.cons_append, pollCases] at h ⊢
        cases henv : env.get? i with
        | none => simp only [henv] at h ⊢; exact ih h
        | some ch =>
          simp only [henv] at h ⊢
          cases htr : ch._trysend tx with
          | panicked m s => simp only [htr] at h; cases h
          | ok s w => simp only [htr] at h; cases h
          | notok s => simp only [htr] at h ⊢; exact ih h
    | recv cno commaok =>
      cases cno with
      | none => simp only [List.cons_append, pollCases] at h ⊢; exact ih h
      | some i =>
        simp only [List.cons_append, pollCases] at h ⊢
        cases henv : env.get? i with
        | none => simp only [henv] at h ⊢; exact ih h
        | some ch =>
          simp only [henv] at h ⊢
          cases htr : ch._tryrecv with
          | ok rx s w => simp only [htr] at h; cases h
          | notok s => simp only [htr] at h ⊢; exact ih h

/-- C7 counterexample: the claim "a select call whose case list
contains more than one default case panics" is false as stated — here
a call with two default cases, whose first polled case is a ready recv
on a non-empty buffered channel, returns that case and does not
panic. -/
theorem C7_counterexample :
    (([(0, SelCase.recv (some 0) false), (1, SelCase.pydefault), (2, SelCase.pydefault)] :
        List (Nat × SelCase Nat)).filter (fun c => isdef c.2)).length = 2 ∧
    pyselect1 [(⟨1, [5], [], [], false⟩ : pychan Nat)]
        [(0, SelCase.recv (some 0) false), (1, SelCase.pydefault), (2, SelCase.pydefault)] =
      .done 0 (SelRet.val (some 5)) [⟨1, [], [], [], false⟩] ∧
    pyselect1 [(⟨1, [5], [], [], false⟩ : pychan Nat)]
        [(0, SelCase.recv (some 0) false), (1, SelCase.pydefault), (2, SelCase.pydefault)] ≠
      .panicked "pyselect: multiple default" := by
  decide

/-- C7 amended: a select call with more than one default case panics
with "pyselect: multiple default" whenever no ready send/recv case
precedes the second default in the polled order — in particular
whenever no case is ready at all; a ready case polled earlier wins
instead and no panic occurs. -/
theorem C7_multiple_default_panics {α : Type} (env env' : List (pychan α))
    (pre rest : List (Nat × SelCase α)) (i j k : Nat)
    (hpre : pollCases env none 0 pre = .nopoll env' (some i) k) :
    pyselect1 env (pre ++ (j, SelCase.pydefault) :: rest) =
      .panicked "pyselect: multiple default" := by
  unfold pyselect1
  rw [pollCases_append_nopoll _ hpre]
  rfl

/-- C7 witness: `select(C.recv, default, default)` on an empty
synchronous channel panics "pyselect: multiple default". -/
theorem C7_witness :
    pyselect1 [pychan.init Nat 0]
        ([(0, SelCase.recv (some 0) false), (1, SelCase.pydefault)] ++
          (2, SelCase.pydefault) :: []) =
      .panicked "pyselect: multiple default" :=
  C7_multiple_default_panics [pychan.init Nat 0] [⟨0, [], [], [], false⟩]
    [(0, SelCase.recv (some 0) false), (1, SelCase.pydefault)] [] 1 2 1 rfl

/-- The `while c.len() > 0: c.recv()` loop empties the buffer: with
fuel at least `|dataq| + |sendq|` the loop reaches an empty buffer
(each iteration strictly decreases that measure). -/
theorem recvLoop_dataq_nil {α : Type} (fuel : Nat) :
    ∀ st : pychan α, st._dataq.length + st._sendq.length ≤ fuel →
      (recvLoop fuel st)._dataq = [] := by
  induction fuel with
  | zero =>
    intro st h
    simp only [recvLoop]
    have hz : st._dataq.length = 0 := by omega
    exact List.length_eq_zero.mp hz
  | succ fuel ih =>
    intro st h
    obtain ⟨cap, dataq, recvq, sendq, closed⟩ := st
    cases dataq with
    | nil => simp [recvLoop]
    | cons rx rest =>
      rcases heq : _dequeWaiter (fun w : _SendWaiting α => w.canWin) sendq with ⟨o, q⟩
      cases o with
      | some s =>
        have hlt := _dequeWaiter_some_length _ heq
        simp only [recvLoop, List.isEmpty_cons, Bool.false_eq_true, if_false,
          pychan.recv_, pychan._tryrecv, heq]
        apply ih
        simp only [List.length_append, List.length_cons] at h ⊢
        simp at h ⊢
        omega
      | none =>
        have hq0 := _dequeWaiter_none _ heq
        subst hq0
        simp only [recvLoop, List.isEmpty_cons, Bool.false_eq_true, if_false,
          pychan.recv_, pychan._tryrecv, heq]
        apply ih
        simp at h ⊢
        omega

/-- `drain` (the stop-side `while len > 0: recv` loop) leaves the
buffer empty. -/
theorem drain_dataq_nil {α : Type} (st : pychan α) : (st.drain)._dataq = [] :=
  recvLoop_dataq_nil _ st le_rfl

/-- Draining through a channel reference leaves length 0 (trivially so
on the nil channel). -/
theorem chan_len_drain {α : Type} (c : chan α) : (c.drain).len = 0 := by
  cases c with
  | nil => rfl
  | mk st => simp [chan.drain, chan.len, drain_dataq_nil st]

/-- C8: `Timer.stop` returns true iff the timer was armed
(`_dt ≠ INFINITY`, i.e. `≠ none`) at the time of the call; it leaves
the timer disarmed, and in the armed case it increments `_ver` so that
the pending fire task (bound to the pre-stop version) finds a version
mismatch and exits without delivering.  In every case the timer's
channel is empty when stop returns. -/
theorem C8_timer_stop (t : PyTimer) (tnow : ℚ) :
    ((t._stop).1 = true ↔ t._dt ≠ none) ∧
    ((t._stop).2)._dt = none ∧
    ((t._stop).2).c.len = 0 ∧
    (t._dt ≠ none →
      ((t._stop).2)._ver = t._ver + 1 ∧
      ((t._stop).2).___fire t._ver tnow = .stale ((t._stop).2)) := by
  rcases hdt : t._dt with _ | d
  · refine ⟨by simp [PyTimer._stop, hdt], by simp [PyTimer._stop, hdt],
            by simp [PyTimer._stop, hdt, chan_len_drain], ?_⟩
    intro hne
    simp [hdt] at hne
  · have hver : ((t._stop).2)._ver = t._ver + 1 := by simp [PyTimer._stop, hdt]
    refine ⟨by simp [PyTimer._stop, hdt], by simp [PyTimer._stop, hdt],
            by simp [PyTimer._stop, hdt, chan_len_drain], ?_⟩
    intro _
    refine ⟨hver, ?_⟩
    unfold PyTimer.___fire
    rw [hver, if_pos (by omega)]

/-- C8 witness: stopping a concrete armed timer (version 4, a pending
value 3 in the channel) returns true, disarms it, drains the channel,
and makes the version-4 fire task a stale no-op. -/
theorem C8_witness :
    (PyTimer._stop ⟨.mk ⟨1, [3], [], [], false⟩, false, some 2, 4⟩).1 = true ∧
    ((PyTimer._stop ⟨.mk ⟨1, [3], [], [], false⟩, false, some 2, 4⟩).2)._dt = none ∧
    ((PyTimer._stop ⟨.mk ⟨1, [3], [], [], false⟩, false, some 2, 4⟩).2).c.len = 0 ∧
    ((PyTimer._stop ⟨.mk ⟨1, [3], [], [], false⟩, false, some 2, 4⟩).2).___fire 4 0 =
      .stale ((PyTimer._stop ⟨.mk ⟨1, [3], [], [], false⟩, false, some 2, 4⟩).2) := by
  have h := C8_timer_stop ⟨.mk ⟨1, [3], [], [], false⟩, false, some 2, 4⟩ 0
  exact ⟨h.1.mpr (by simp), h.2.1, h.2.2.1, (h.2.2.2 (by simp)).2⟩

/-- C9: `Timer.reset(dt)` panics iff the timer is armed
(`_dt ≠ INFINITY`); on a disarmed timer it sets the deadline, bumps
the version and spawns a fire task bound to `(dt, new version)`; in
particular reset directly after stop always succeeds. -/
theorem C9_timer_reset (t : PyTimer) (dt dt' : ℚ) :
    (t._dt = none →
      t._reset dt = .ok { t with _dt := some dt, _ver := t._ver + 1 } (dt, t._ver + 1)) ∧
    (t._dt ≠ none →
      t._reset dt = .panicked "Timer.reset: the timer is armed; must be stopped or expired") ∧
    ((t._stop).2._reset dt' =
      .ok { (t._stop).2 with _dt := some dt', _ver := (t._stop).2._ver + 1 }
         (dt', (t._stop).2._ver + 1)) := by
  refine ⟨?_, ?_, ?_⟩
  · intro h
    simp [PyTimer._reset, h]
  · intro h
    rcases hdt : t._dt with _ | d
    · exact absurd hdt h
    · simp [PyTimer._reset, hdt]
  · have hdt : (t._stop).2._dt = none := by
      rcases hdt : t._dt with _ | d <;> simp [PyTimer._stop, hdt]
    simp [PyTimer._reset, hdt]

/-- C9 witness: reset on a concrete armed timer panics; reset on a
stopped timer, and reset right after stop, both succeed and rearm. -/
theorem C9_witness :
    PyTimer._reset ⟨.mk (pychan.init ℚ 1), false, some 1, 0⟩ 5 =
      .panicked "Timer.reset: the timer is armed; must be stopped or expired" ∧
    PyTimer._reset ⟨.mk (pychan.init ℚ 1), false, none, 3⟩ 5 =
      .ok ⟨.mk (pychan.init ℚ 1), false, some 5, 4⟩ (5, 4) ∧
    PyTimer._reset ((PyTimer._stop ⟨.mk (pychan.init ℚ 1), false, some 1, 0⟩).2) 7 =
      .ok ⟨.mk (pychan.init ℚ 1), false, some 7, 2⟩ (7, 2) := by
  refine ⟨(C9_timer_reset ⟨.mk (pychan.init ℚ 1), false, some 1, 0⟩ 5 5).2.1 (by simp),
          (C9_timer_reset ⟨.mk (pychan.init ℚ 1), false, none, 3⟩ 5 5).1 rfl, ?_⟩
  exact (C9_timer_reset ⟨.mk (pychan.init ℚ 1), false, some 1, 0⟩ 7 7).2.2

/-- C10: for every `dt ≤ 0`, `tick(dt)` returns the nil channel — on
which `recv_` blocks forever — and does not panic (`.ok`, not
`.error`); only direct Ticker construction with `dt ≤ 0` panics with
"ticker: dt <= 0". -/
theorem C10_tick_nonpositive (dt : ℚ) (h : dt ≤ 0) :
    pytick dt = .ok .nil ∧
    PyTicker.init dt = .panicked "ticker: dt <= 0" ∧
    chan.recv_ (chan.nil : chan ℚ) = .blockForever := by
  refine ⟨?_, ?_, rfl⟩ <;> simp [pytick, PyTicker.init, h]

/-- C10 witness: `tick(0)` yields the nil channel while `Ticker(0)`
panics. -/
theorem C10_witness :
    pytick 0 = .ok .nil ∧
    PyTicker.init 0 = .panicked "ticker: dt <= 0" ∧
    chan.recv_ (chan.nil : chan ℚ) = .blockForever :=
  C10_tick_nonpositive 0 le_rfl

end Pygolang
